import Mathlib

/-!
# doc-flow: Access Control & Derived-View Resolution Engine

A shallow embedding of the doc-flow API's authorization middleware
(`src/api/src/middleware/authorize.js`), folder-tree builder and folder
routes (`src/api/src/routes/folders.js`), submission routes, comment
routes, and activity logger (`src/api/src/utils/activityLogger.js`),
together with theorems settling the specification's claims about them.

Database rows are modelled as Lean structures and tables as lists; knex
`.first()` becomes `List.find?`, `.where(...)` becomes `List.filter`,
SQL `IN (subquery)` becomes list membership.  Route handlers become
functions from a `DB` state (plus request data) to an updated `DB`
paired with an `Except`-style response.  The fallibility of the
activity-log insert is made explicit through an `auditOk : Bool`
parameter; timestamps are naturals threaded as a `now` parameter.
-/

namespace DocFlow

/-- A row of `users` (only the columns the engine reads). -/
structure User where
  id : Nat
  role : String
deriving DecidableEq, Repr

/-- A row of `courses`. -/
structure Course where
  id : Nat
  instructor_id : Option Nat
deriving DecidableEq, Repr

/-- A row of `course_enrollments`. -/
structure Enrollment where
  course_id : Nat
  user_id : Nat
  role : String
deriving DecidableEq, Repr

/-- A row of `documents`. -/
structure Document where
  id : Nat
  author_id : Nat
  course_id : Option Nat
  is_deleted : Bool
deriving DecidableEq, Repr

/-- A row of `document_permissions`: exactly one of `user_id`,
`course_id` is non-null in well-formed data (not enforced here, exactly
as the schema does not enforce it). -/
structure DocumentPermission where
  document_id : Nat
  user_id : Option Nat
  course_id : Option Nat
  permission : String
deriving DecidableEq, Repr

/-- A row of `folders` (`parent_id` null means root). -/
structure Folder where
  id : Nat
  name : String
  parent_id : Option Nat
deriving DecidableEq, Repr

/-- A row of `projects`. -/
structure Project where
  id : Nat
  course_id : Nat
deriving DecidableEq, Repr

/-- A row of `tasks` (columns used by the submission routes). -/
structure Task where
  id : Nat
  project_id : Nat
  status : String
  due_date : Option Nat
  allow_late_submission : Bool
deriving DecidableEq, Repr

/-- A row of `task_assignments`. -/
structure TaskAssignment where
  task_id : Nat
  assigned_to : Nat
  status : String
deriving DecidableEq, Repr

/-- A row of `submissions`. -/
structure Submission where
  id : Nat
  task_id : Nat
  user_id : Nat
  content : String
  attempt_number : Nat
  graded_at : Option Nat
deriving DecidableEq, Repr

/-- A row of `comments`. -/
structure Comment where
  id : Nat
  entity_type : String
  entity_id : Nat
  user_id : Nat
  content : String
  parent_id : Option Nat
deriving DecidableEq, Repr

/-- A row of `activity_log`. -/
structure ActivityLogEntry where
  user_id : Nat
  action : String
  entity_type : String
  entity_id : Nat
  metadata : String
  created_at : Nat
deriving DecidableEq, Repr

/-- The relational store seen by the engine. -/
structure DB where
  users : List User
  courses : List Course
  enrollments : List Enrollment
  documents : List Document
  document_permissions : List DocumentPermission
  folders : List Folder
  projects : List Project
  tasks : List Task
  task_assignments : List TaskAssignment
  submissions : List Submission
  comments : List Comment
  activity_log : List ActivityLogEntry
deriving DecidableEq, Repr

/-- Outcome of an authorization middleware: `ok` models `next()`,
`notFound` a 404 response, `forbidden` a 403 response. -/
inductive AuthResult where
  | ok
  | notFound
  | forbidden
deriving DecidableEq, Repr

/-- Typed API error responses of the route handlers. -/
inductive ApiErr where
  | badRequest (msg : String)
  | forbidden (msg : String)
  | notFound (msg : String)
deriving DecidableEq, Repr

/-! ## Authorization middleware (`src/api/src/middleware/authorize.js`) -/

/-- Table `ROLE_HIERARCHY` from authorize.js; an unknown role maps to 0
(the JS `ROLE_HIERARCHY[userRole] || 0`). -/
def ROLE_HIERARCHY (role : String) : Nat :=
  if role = "admin" then 5
  else if role = "instructor" then 4
  else if role = "teaching_assistant" then 3
  else if role = "student" then 2
  else if role = "reader" then 1
  else 0

/-- Middleware `requireRole(...allowedRoles)` applied to an authenticated user's
role: passes when the role is listed, otherwise passes unless the
user's hierarchy level is strictly below the maximum level of the
listed roles.  (`List.foldl Nat.max 0` agrees with JS `Math.max` over
the mapped levels for every list, since all levels are naturals.) -/
def requireRole (allowedRoles : List String) (userRole : String) : Bool :=
  if allowedRoles.contains userRole then
    true
  else
    let userLevel := ROLE_HIERARCHY userRole
    let maxAllowedLevel := (allowedRoles.map ROLE_HIERARCHY).foldl Nat.max 0
    !(userLevel < maxAllowedLevel)

/-- The document lookup shared by `canViewDocument` and
`canEditDocument`: `where('id', documentId).where('is_deleted', false).first()`. -/
def findNonDeletedDocument (db : DB) (documentId : Nat) : Option Document :=
  db.documents.find? (fun d => decide (d.id = documentId ∧ d.is_deleted = false))

/-- Course ids the user is enrolled in (the subquery
`db('course_enrollments').select('course_id').where('user_id', userId)`). -/
def enrolledCourseIds (db : DB) (userId : Nat) : List Nat :=
  (db.enrollments.filter (fun e => decide (e.user_id = userId))).map (fun e => e.course_id)

/-- The `document_permissions` match used by both document middlewares:
row is for this document and either names the user directly or names a
course the user is enrolled in (SQL `IN` is false on a null `course_id`). -/
def permissionMatches (db : DB) (userId documentId : Nat) (p : DocumentPermission) : Bool :=
  decide (p.document_id = documentId) &&
    (decide (p.user_id = some userId) ||
      (match p.course_id with
       | some cid => (enrolledCourseIds db userId).contains cid
       | none => false))

/-- Middleware `canViewDocument`: document lookup (soft-delete filtered) first,
then admin/author, then enrollment in the document's course, then any
explicit permission row. -/
def canViewDocument (db : DB) (actor : User) (documentId : Nat) : AuthResult :=
  match findNonDeletedDocument db documentId with
  | none => .notFound
  | some document =>
    if actor.role = "admin" ∨ document.author_id = actor.id then .ok
    else if (match document.course_id with
             | some cid =>
               (db.enrollments.find? (fun e =>
                 decide (e.course_id = cid ∧ e.user_id = actor.id))).isSome
             | none => false : Bool) then .ok
    else if (db.document_permissions.find? (fun p =>
               permissionMatches db actor.id documentId p)).isSome then .ok
    else .forbidden

/-- Middleware `canEditDocument`: document lookup (soft-delete filtered) first,
then admin/author, then an explicit permission row whose level is
`edit` or `admin` (no enrollment branch). -/
def canEditDocument (db : DB) (actor : User) (documentId : Nat) : AuthResult :=
  match findNonDeletedDocument db documentId with
  | none => .notFound
  | some document =>
    if actor.role = "admin" ∨ document.author_id = actor.id then .ok
    else if (db.document_permissions.find? (fun p =>
               permissionMatches db actor.id documentId p &&
                 decide (p.permission = "edit" ∨ p.permission = "admin"))).isSome then .ok
    else .forbidden

/-- Middleware `canManageCourse`: admin short-circuits before the course lookup;
then course owner; then enrollment with role instructor or TA. -/
def canManageCourse (db : DB) (actor : User) (courseId : Nat) : AuthResult :=
  if actor.role = "admin" then .ok
  else
    match db.courses.find? (fun c => decide (c.id = courseId)) with
    | none => .notFound
    | some course =>
      if course.instructor_id = some actor.id then .ok
      else if (db.enrollments.find? (fun e =>
                 decide (e.course_id = courseId ∧ e.user_id = actor.id ∧
                   (e.role = "instructor" ∨ e.role = "teaching_assistant")))).isSome then .ok
      else .forbidden

/-- The submission→task→project→course join of `canGradeSubmission`
(an inner join: any missing link yields no row). -/
def submissionCourse (db : DB) (submissionId : Nat) : Option (Submission × Course) :=
  match db.submissions.find? (fun s => decide (s.id = submissionId)) with
  | none => none
  | some s =>
    match db.tasks.find? (fun t => decide (t.id = s.task_id)) with
    | none => none
    | some t =>
      match db.projects.find? (fun p => decide (p.id = t.project_id)) with
      | none => none
      | some p =>
        match db.courses.find? (fun c => decide (c.id = p.course_id)) with
        | none => none
        | some c => some (s, c)

/-- Middleware `canGradeSubmission`: admin short-circuits before the joined
lookup; then course instructor; then instructor/TA enrollment. -/
def canGradeSubmission (db : DB) (actor : User) (submissionId : Nat) : AuthResult :=
  if actor.role = "admin" then .ok
  else
    match submissionCourse db submissionId with
    | none => .notFound
    | some sc =>
      if sc.2.instructor_id = some actor.id then .ok
      else if (db.enrollments.find? (fun e =>
                 decide (e.course_id = sc.2.id ∧ e.user_id = actor.id ∧
                   (e.role = "instructor" ∨ e.role = "teaching_assistant")))).isSome then .ok
      else .forbidden

/-! ## Audit recorder (`src/api/src/utils/activityLogger.js`) -/

/-- Recorder `logActivity(userId, action, entityType, entityId, metadata)`:
the insert into `activity_log` may fail (modelled by `auditOk`), and
the surrounding try/catch swallows the failure, so the function is
total: on failure the store is simply left unchanged.  `now` is the
database-assigned `created_at`. -/
def logActivity (db : DB) (auditOk : Bool) (now : Nat) (userId : Nat)
    (action entityType : String) (entityId : Nat) (metadata : String) : DB :=
  if auditOk then
    { db with activity_log :=
        db.activity_log ++ [⟨userId, action, entityType, entityId, metadata, now⟩] }
  else
    db

/-- The `join('users', ...)` guard of the activity queries: an inner
join keeps an entry only when its `user_id` matches a `users` row. -/
def userExists (db : DB) (userId : Nat) : Bool :=
  (db.users.find? (fun u => decide (u.id = userId))).isSome

/-- The five-branch `where` of `getCourseActivity`: the entry names the
course itself, a project of the course, a task of such a project, a
submission of such a task, or a document with this `course_id`. -/
def inCourseClosure (db : DB) (courseId : Nat) (e : ActivityLogEntry) : Bool :=
  (decide (e.entity_type = "course") && decide (e.entity_id = courseId))
  || (decide (e.entity_type = "project") &&
        db.projects.any (fun p => decide (p.id = e.entity_id ∧ p.course_id = courseId)))
  || (decide (e.entity_type = "task") &&
        db.tasks.any (fun t => decide (t.id = e.entity_id) &&
          db.projects.any (fun p => decide (p.id = t.project_id ∧ p.course_id = courseId))))
  || (decide (e.entity_type = "submission") &&
        db.submissions.any (fun s => decide (s.id = e.entity_id) &&
          db.tasks.any (fun t => decide (t.id = s.task_id) &&
            db.projects.any (fun p => decide (p.id = t.project_id ∧ p.course_id = courseId)))))
  || (decide (e.entity_type = "document") &&
        db.documents.any (fun d => decide (d.id = e.entity_id ∧ d.course_id = some courseId)))

/-- Insert an entry into a list sorted by `created_at` descending. -/
def insertByCreatedDesc (e : ActivityLogEntry) :
    List ActivityLogEntry → List ActivityLogEntry
  | [] => [e]
  | x :: xs =>
    if x.created_at < e.created_at then e :: x :: xs
    else x :: insertByCreatedDesc e xs

/-- The SQL `orderBy('created_at', 'desc')`, as an insertion sort. -/
def sortByCreatedDesc (l : List ActivityLogEntry) : List ActivityLogEntry :=
  l.foldr insertByCreatedDesc []

/-- Aggregator `getCourseActivity(courseId, limit)`: filter the log to the course
closure (inner-joined with `users`), order by `created_at` descending,
truncate to `limit`. -/
def getCourseActivity (db : DB) (courseId limit : Nat) : List ActivityLogEntry :=
  (sortByCreatedDesc (db.activity_log.filter (fun e =>
    inCourseClosure db courseId e && userExists db e.user_id))).take limit

/-! ## Folder tree builder and folder routes (`src/api/src/routes/folders.js`) -/

/-- A node of the folder forest returned by `GET /api/folders`. -/
inductive FolderTree where
  | node (folder : Folder) (children : List FolderTree)
deriving Repr

/-- One node of the two-pass tree assembly: the children of a folder
`f` are (recursively built from) exactly the candidate folders whose
`parent_id` is `f.id`, in input order; `fuel` bounds the recursion
depth (the JS mutation-based assembly needs no fuel, but builds the
same structure for every input whose reachable parent chains are
acyclic, which `fuel = folders.length` covers). -/
def buildFolderNode (all : List Folder) : Nat → Folder → FolderTree
  | 0, f => .node f []
  | fuel + 1, f =>
    .node f ((all.filter (fun g => decide (g.parent_id = some f.id))).map
      (fun g => buildFolderNode all fuel g))

/-- The `GET /api/folders` tree assembly: the returned forest has one
root per candidate folder with null `parent_id` (in input order); a
folder whose `parent_id` names a candidate appears under that parent;
a folder whose `parent_id` names no candidate is attached nowhere. -/
def buildFolderForest (folders : List Folder) : List FolderTree :=
  (folders.filter (fun f => decide (f.parent_id = none))).map
    (fun f => buildFolderNode folders folders.length f)

/-- Whether a folder occurs anywhere in a tree. -/
def folderInTree (f : Folder) : FolderTree → Bool
  | .node g children => decide (f = g) || children.attach.any (fun c => folderInTree f c.1)
decreasing_by
  simp_wf
  have h := List.sizeOf_lt_of_mem c.2
  omega

/-- Whether a folder occurs anywhere in a forest. -/
def folderInForest (f : Folder) (forest : List FolderTree) : Bool :=
  forest.any (fun t => folderInTree f t)

/-- Handler for `PUT /api/folders/:id`: 404 when the folder is missing; reject only
the literal self-move `parent_id === id`; otherwise apply the provided
field updates and append an audit entry. -/
def updateFolder (db : DB) (auditOk : Bool) (now userId folderId : Nat)
    (name? : Option String) (parent? : Option Nat) : DB × Except ApiErr Folder :=
  match db.folders.find? (fun f => decide (f.id = folderId)) with
  | none => (db, .error (.notFound "Folder not found"))
  | some folder =>
    if parent? = some folderId then
      (db, .error (.badRequest "Cannot move folder into itself"))
    else
      let updated : Folder :=
        { folder with
          name := name?.getD folder.name
          parent_id := match parent? with
                       | some p => some p
                       | none => folder.parent_id }
      let db1 := { db with
        folders := db.folders.map (fun f => if f.id = folderId then updated else f) }
      let db2 := logActivity db1 auditOk now userId "update" "folder" folderId "fields"
      (db2, .ok updated)

/-- Parent id (`parent_id`) of the folder row with the given id, if present. -/
def parentOf (folders : List Folder) (id : Nat) : Option Nat :=
  match folders.find? (fun f => decide (f.id = id)) with
  | some f => f.parent_id
  | none => none

/-- Predicate `ancestorWithin folders fuel a b`: `a` is reachable from `b` by
following `parent_id` links at most `fuel` times. -/
def ancestorWithin (folders : List Folder) : Nat → Nat → Nat → Bool
  | 0, _, _ => false
  | fuel + 1, a, b =>
    match parentOf folders b with
    | none => false
    | some p => decide (p = a) || ancestorWithin folders fuel a p

/-! ## Submission routes (`src/api/src/routes/search.js`, submissions part) -/

/-- The `submissions.where({task_id, user_id})` row set of one
(task, user) pair. -/
def pairSubmissions (db : DB) (taskId userId : Nat) : List Submission :=
  db.submissions.filter (fun s => decide (s.task_id = taskId ∧ s.user_id = userId))

/-- Handler for `POST /api/submissions`: task joined through project and course,
must be published; actor must be enrolled and assigned; late check
against `now`; then `attempt_number := count + 1`, insert, assignment
status `submitted`, audit entry. -/
def createSubmission (db : DB) (auditOk : Bool) (now userId taskId : Nat)
    (content : String) (newId : Nat) : DB × Except ApiErr Submission :=
  match db.tasks.find? (fun t => decide (t.id = taskId)) with
  | none => (db, .error (.notFound "Task not found"))
  | some task =>
    match db.projects.find? (fun p => decide (p.id = task.project_id)) with
    | none => (db, .error (.notFound "Task not found"))
    | some project =>
      match db.courses.find? (fun c => decide (c.id = project.course_id)) with
      | none => (db, .error (.notFound "Task not found"))
      | some _ =>
        if task.status ≠ "published" then
          (db, .error (.badRequest "Task is not published yet"))
        else if (db.enrollments.find? (fun e =>
                   decide (e.course_id = project.course_id ∧ e.user_id = userId))).isNone then
          (db, .error (.forbidden "You are not enrolled in this course"))
        else if (db.task_assignments.find? (fun a =>
                   decide (a.task_id = taskId ∧ a.assigned_to = userId))).isNone then
          (db, .error (.forbidden "Task is not assigned to you"))
        else if !task.allow_late_submission ∧
                 (match task.due_date with
                  | some d => decide (d < now)
                  | none => false : Bool) then
          (db, .error (.badRequest "Submission deadline has passed"))
        else
          let count := (pairSubmissions db taskId userId).length
          let attemptNumber := count + 1
          let submission : Submission := ⟨newId, taskId, userId, content, attemptNumber, none⟩
          let db1 := { db with
            submissions := db.submissions ++ [submission]
            task_assignments := db.task_assignments.map (fun a =>
              if a.task_id = taskId ∧ a.assigned_to = userId then
                { a with status := "submitted" }
              else a) }
          let db2 := logActivity db1 auditOk now userId "submit" "submission" newId "attempt"
          (db2, .ok submission)

/-- Handler for `PUT /api/submissions/:id`: 404 when missing; only the owner may
update; a graded submission (`graded_at` set) is rejected before any
write; otherwise the content is updated and an audit entry appended. -/
def updateSubmission (db : DB) (auditOk : Bool) (now userId submissionId : Nat)
    (content : String) : DB × Except ApiErr Submission :=
  match db.submissions.find? (fun s => decide (s.id = submissionId)) with
  | none => (db, .error (.notFound "Submission not found"))
  | some submission =>
    if submission.user_id ≠ userId then
      (db, .error (.forbidden "Access denied"))
    else if submission.graded_at.isSome then
      (db, .error (.badRequest "Cannot update graded submission"))
    else
      let updated := { submission with content := content }
      let db1 := { db with
        submissions := db.submissions.map (fun s => if s.id = submissionId then updated else s) }
      let db2 := logActivity db1 auditOk now userId "update" "submission" submissionId ""
      (db2, .ok updated)

/-- Handler for `DELETE /api/submissions/:id`: 404 when missing; only the owner may
delete; a graded submission is rejected; otherwise the row is removed,
the assignment reverts to `in_progress`, and an audit entry appended. -/
def deleteSubmission (db : DB) (auditOk : Bool) (now userId submissionId : Nat) :
    DB × Except ApiErr Unit :=
  match db.submissions.find? (fun s => decide (s.id = submissionId)) with
  | none => (db, .error (.notFound "Submission not found"))
  | some submission =>
    if submission.user_id ≠ userId then
      (db, .error (.forbidden "Access denied"))
    else if submission.graded_at.isSome then
      (db, .error (.badRequest "Cannot delete graded submission"))
    else
      let db1 := { db with
        submissions := db.submissions.filter (fun s => decide (s.id ≠ submissionId))
        task_assignments := db.task_assignments.map (fun a =>
          if a.task_id = submission.task_id ∧ a.assigned_to = submission.user_id then
            { a with status := "in_progress" }
          else a) }
      let db2 := logActivity db1 auditOk now userId "delete" "submission" submissionId ""
      (db2, .ok ())

/-! ## Comment creation (`POST /api/comments`) -/

/-- Handler for `POST /api/comments`: no authorization or visibility check on the
target entity is performed; the only business rule is the parent check
(a supplied `parent_id` must name an existing comment on the same
`(entity_type, entity_id)`); then the row is inserted and an audit
entry appended against the target entity. -/
def createComment (db : DB) (auditOk : Bool) (now userId : Nat)
    (entityType : String) (entityId : Nat) (content : String)
    (parentId : Option Nat) (newId : Nat) : DB × Except ApiErr Comment :=
  let parentCheck : Option ApiErr :=
    match parentId with
    | none => none
    | some pid =>
      match db.comments.find? (fun c => decide (c.id = pid)) with
      | none => some (.notFound "Parent comment not found")
      | some parent =>
        if parent.entity_id ≠ entityId ∨ parent.entity_type ≠ entityType then
          some (.badRequest "Parent comment does not belong to this entity")
        else none
  match parentCheck with
  | some e => (db, .error e)
  | none =>
    let comment : Comment := ⟨newId, entityType, entityId, userId, content, parentId⟩
    let db1 := { db with comments := db.comments ++ [comment] }
    let db2 := logActivity db1 auditOk now userId "create" entityType entityId "comment"
    (db2, .ok comment)

/-! ## Concrete stores used by counterexamples and witnesses -/

/-- A store with every table empty. -/
def emptyDB : DB := ⟨[], [], [], [], [], [], [], [], [], [], [], []⟩

/-- Erase the audit trail of a store; two stores with equal erasure
differ at most in `activity_log`. -/
def eraseLog (db : DB) : DB := { db with activity_log := [] }

/-- Store holding one soft-deleted document (id 5, author 2). -/
def dbDeletedDoc : DB := { emptyDB with documents := [⟨5, 2, none, true⟩] }

/-- Store for the admin-override witness: one non-deleted document. -/
def dbLiveDoc : DB := { emptyDB with documents := [⟨5, 2, none, false⟩] }

/-- A single folder whose `parent_id` names a folder outside the set. -/
def orphanFolder : Folder := ⟨2, "b", some 1⟩

/-- A root folder used by the tree-builder witness. -/
def rootFolder : Folder := ⟨1, "a", none⟩

/-- Store for the attempt-number scenario: course 1, project 1,
published task 1 with no due date, user 7 enrolled and assigned. -/
def dbAttempt : DB := { emptyDB with
  courses := [⟨1, none⟩]
  projects := [⟨1, 1⟩]
  tasks := [⟨1, 1, "published", none, false⟩]
  enrollments := [⟨1, 7, "student"⟩]
  task_assignments := [⟨1, 7, "not_started"⟩] }

/-- State after user 7's first submission (id 101, attempt 1). -/
def dbAttempt1 : DB := (createSubmission dbAttempt true 0 7 1 "a" 101).1

/-- State after the second submission (id 102, attempt 2). -/
def dbAttempt2 : DB := (createSubmission dbAttempt1 true 0 7 1 "b" 102).1

/-- State after deleting the first submission: attempt 1 is free again,
only attempt 2 remains. -/
def dbAttemptDel : DB := (deleteSubmission dbAttempt2 true 0 7 101).1

/-- Store with folder 1 a root and folder 2 its child. -/
def dbFolderPair : DB := { emptyDB with folders := [⟨1, "a", none⟩, ⟨2, "b", some 1⟩] }

/-- Store with a non-deleted course document (id 10, course 1) whose
author (user 2) is enrolled in course 1 as a student, and no explicit
grants. -/
def dbAuthorStudent : DB := { emptyDB with
  documents := [⟨10, 2, some 1, false⟩]
  enrollments := [⟨1, 2, "student"⟩] }

/-- The document author of `dbAuthorStudent`, global role student. -/
def authorStudent : User := ⟨2, "student"⟩

/-- Store like `dbAuthorStudent` but the enrolled student (user 3) is
not the document's author. -/
def dbPlainStudent : DB := { emptyDB with
  documents := [⟨10, 2, some 1, false⟩]
  enrollments := [⟨1, 3, "student"⟩] }

/-- The enrolled non-author student of `dbPlainStudent`. -/
def plainStudent : User := ⟨3, "student"⟩

/-- Store holding one graded submission (id 40) owned by user 7. -/
def dbGraded : DB := { emptyDB with
  submissions := [⟨40, 1, 7, "done", 1, some 99⟩] }

/-- Store for the activity-aggregation witness: two full containment
chains (course 1 with project 11, task 12, submission 13, document 14;
course 2 with project 21, task 22, submission 23, document 24) and one
log entry per entity, all by user 7. -/
def dbActivity : DB := { emptyDB with
  users := [⟨7, "student"⟩]
  courses := [⟨1, none⟩, ⟨2, none⟩]
  projects := [⟨11, 1⟩, ⟨21, 2⟩]
  tasks := [⟨12, 11, "published", none, false⟩, ⟨22, 21, "published", none, false⟩]
  submissions := [⟨13, 12, 7, "", 1, none⟩, ⟨23, 22, 7, "", 1, none⟩]
  documents := [⟨14, 7, some 1, false⟩, ⟨24, 7, some 2, false⟩]
  activity_log := [
    ⟨7, "create", "course", 1, "", 1⟩,
    ⟨7, "create", "project", 11, "", 2⟩,
    ⟨7, "create", "task", 12, "", 3⟩,
    ⟨7, "submit", "submission", 13, "", 4⟩,
    ⟨7, "create", "document", 14, "", 5⟩,
    ⟨7, "create", "course", 2, "", 6⟩,
    ⟨7, "create", "project", 21, "", 7⟩,
    ⟨7, "create", "task", 22, "", 8⟩,
    ⟨7, "submit", "submission", 23, "", 9⟩,
    ⟨7, "create", "document", 24, "", 10⟩] }

/-- Store holding one comment (id 3) on document 55, used by the
comment-creation witness. -/
def dbOneComment : DB := { emptyDB with
  comments := [⟨3, "document", 55, 7, "root", none⟩] }

/-! ## Helper lemmas -/

/-- Folding `Nat.max` bounds: the fold is at most `b` iff the seed and
every list element are. -/
theorem foldl_max_le_iff (l : List Nat) (a b : Nat) :
    l.foldl Nat.max a ≤ b ↔ a ≤ b ∧ ∀ x, x ∈ l → x ≤ b := by
  induction l generalizing a with
  | nil => simp
  | cons y ys ih =>
    simp only [List.foldl_cons, ih, Nat.max_le, List.mem_cons]
    constructor
    · rintro ⟨⟨ha, hy⟩, hall⟩
      exact ⟨ha, fun x hx => hx.elim (fun h => h ▸ hy) (hall x)⟩
    · rintro ⟨ha, hall⟩
      exact ⟨⟨ha, hall y (Or.inl rfl)⟩, fun x hx => hall x (Or.inr hx)⟩

/-- Every built node is a `node` labelled with the folder it was built
from (helper for C2). -/
theorem buildFolderNode_isNode (all : List Folder) (fuel : Nat) (f : Folder) :
    ∃ cs, buildFolderNode all fuel f = .node f cs := by
  cases fuel <;> exact ⟨_, rfl⟩

/-- Occurrence inside a built node implies being the node's own folder
or having a parent inside the candidate set (helper for C2). -/
theorem folderInTree_buildFolderNode (all : List Folder) :
    ∀ fuel : Nat, ∀ g ∈ all, ∀ f : Folder,
      folderInTree f (buildFolderNode all fuel g) = true →
      f = g ∨ ∃ h, h ∈ all ∧ f.parent_id = some h.id := by
  intro fuel
  induction fuel with
  | zero =>
    intro g _ f hf
    simp [buildFolderNode, folderInTree] at hf
    exact Or.inl hf
  | succ n ih =>
    intro g hg f hf
    simp only [buildFolderNode, folderInTree, Bool.or_eq_true, decide_eq_true_eq,
      List.any_eq_true, List.mem_attach, true_and, Subtype.exists] at hf
    rcases hf with hf | ⟨t, ht, hft⟩
    · exact Or.inl hf
    · rcases List.mem_map.mp ht with ⟨c0, hc0, rfl⟩
      rcases List.mem_filter.mp hc0 with ⟨hc0all, hc0p⟩
      rcases ih c0 hc0all f hft with rfl | hex
      · exact Or.inr ⟨g, hg, by simpa using hc0p⟩
      · exact Or.inr hex

/-- Membership in a descending insert (helper for C6). -/
theorem mem_insertByCreatedDesc (e x : ActivityLogEntry) (l : List ActivityLogEntry) :
    x ∈ insertByCreatedDesc e l ↔ x = e ∨ x ∈ l := by
  induction l with
  | nil => simp [insertByCreatedDesc]
  | cons y ys ih =>
    simp only [insertByCreatedDesc]
    split_ifs with h
    · simp [List.mem_cons]
    · simp only [List.mem_cons, ih]
      tauto

/-- Membership is preserved by the descending sort (helper for C6). -/
theorem mem_sortByCreatedDesc (x : ActivityLogEntry) (l : List ActivityLogEntry) :
    x ∈ sortByCreatedDesc l ↔ x ∈ l := by
  induction l with
  | nil => simp [sortByCreatedDesc]
  | cons y ys ih =>
    simp only [sortByCreatedDesc, List.foldr_cons] at ih ⊢
    rw [mem_insertByCreatedDesc]
    simp only [List.mem_cons, ih]

/-- Length is preserved by the descending insert (helper for C6). -/
theorem length_insertByCreatedDesc (e : ActivityLogEntry) (l : List ActivityLogEntry) :
    (insertByCreatedDesc e l).length = l.length + 1 := by
  induction l with
  | nil => simp [insertByCreatedDesc]
  | cons y ys ih =>
    simp only [insertByCreatedDesc]
    split_ifs with h
    · simp
    · simp [ih]

/-- Length is preserved by the descending sort (helper for C6). -/
theorem length_sortByCreatedDesc (l : List ActivityLogEntry) :
    (sortByCreatedDesc l).length = l.length := by
  induction l with
  | nil => rfl
  | cons y ys ih =>
    simp only [sortByCreatedDesc, List.foldr_cons] at ih ⊢
    rw [length_insertByCreatedDesc, ih, List.length_cons]

/-- Inserting into a descending-sorted list keeps it sorted
(helper for C6). -/
theorem pairwise_insertByCreatedDesc (e : ActivityLogEntry) (l : List ActivityLogEntry)
    (h : l.Pairwise (fun a b => b.created_at ≤ a.created_at)) :
    (insertByCreatedDesc e l).Pairwise (fun a b => b.created_at ≤ a.created_at) := by
  induction l with
  | nil => simp [insertByCreatedDesc]
  | cons y ys ih =>
    rw [List.pairwise_cons] at h
    obtain ⟨hy, hys⟩ := h
    simp only [insertByCreatedDesc]
    split_ifs with hcy
    · rw [List.pairwise_cons]
      refine ⟨?_, List.pairwise_cons.mpr ⟨hy, hys⟩⟩
      intro z hz
      rcases List.mem_cons.mp hz with rfl | hz
      · exact Nat.le_of_lt hcy
      · exact le_trans (hy z hz) (Nat.le_of_lt hcy)
    · rw [List.pairwise_cons]
      refine ⟨?_, ih hys⟩
      intro z hz
      rcases (mem_insertByCreatedDesc e z ys).mp hz with rfl | hz
      · exact Nat.not_lt.mp hcy
      · exact hy z hz

/-- The descending sort produces a descending-sorted list
(helper for C6). -/
theorem pairwise_sortByCreatedDesc (l : List ActivityLogEntry) :
    (sortByCreatedDesc l).Pairwise (fun a b => b.created_at ≤ a.created_at) := by
  induction l with
  | nil => simp [sortByCreatedDesc]
  | cons y ys ih =>
    simp only [sortByCreatedDesc, List.foldr_cons] at ih ⊢
    exact pairwise_insertByCreatedDesc y _ ih

/-- Unfolding of the five-branch course-closure filter into the
containment-closure predicate of the specification (helper for C6). -/
theorem inCourseClosure_iff (db : DB) (courseId : Nat) (e : ActivityLogEntry) :
    inCourseClosure db courseId e = true ↔
      ((e.entity_type = "course" ∧ e.entity_id = courseId) ∨
       (e.entity_type = "project" ∧ ∃ p, p ∈ db.projects ∧
          p.id = e.entity_id ∧ p.course_id = courseId) ∨
       (e.entity_type = "task" ∧ ∃ t, t ∈ db.tasks ∧ t.id = e.entity_id ∧
          ∃ p, p ∈ db.projects ∧ p.id = t.project_id ∧ p.course_id = courseId) ∨
       (e.entity_type = "submission" ∧ ∃ s, s ∈ db.submissions ∧ s.id = e.entity_id ∧
          ∃ t, t ∈ db.tasks ∧ t.id = s.task_id ∧
            ∃ p, p ∈ db.projects ∧ p.id = t.project_id ∧ p.course_id = courseId) ∨
       (e.entity_type = "document" ∧ ∃ d, d ∈ db.documents ∧
          d.id = e.entity_id ∧ d.course_id = some courseId)) := by
  simp [inCourseClosure, Bool.or_eq_true, Bool.and_eq_true, decide_eq_true_eq,
    List.any_eq_true, and_assoc, or_assoc]

/-- Unfolding of the inner `users` join guard (helper for C6). -/
theorem userExists_iff (db : DB) (userId : Nat) :
    userExists db userId = true ↔ ∃ u, u ∈ db.users ∧ u.id = userId := by
  simp [userExists, List.find?_isSome]

/-- Erasing the audit trail absorbs any recorder call, successful or
failed (helper for C8). -/
theorem eraseLog_logActivity (db : DB) (a : Bool) (now userId : Nat)
    (action entityType : String) (entityId : Nat) (metadata : String) :
    eraseLog (logActivity db a now userId action entityType entityId metadata)
      = eraseLog db := by
  cases a <;> rfl

/-- Audit-failure independence of `POST /api/submissions`
(helper for C8). -/
theorem createSubmission_audit_invariant (db : DB) (a b : Bool)
    (now userId taskId : Nat) (content : String) (newId : Nat) :
    (createSubmission db a now userId taskId content newId).2
      = (createSubmission db b now userId taskId content newId).2 ∧
    eraseLog (createSubmission db a now userId taskId content newId).1
      = eraseLog (createSubmission db b now userId taskId content newId).1 := by
  unfold createSubmission
  cases h1 : db.tasks.find? (fun t => decide (t.id = taskId)) with
  | none => exact ⟨rfl, rfl⟩
  | some task =>
    dsimp only
    cases h2 : db.projects.find? (fun p => decide (p.id = task.project_id)) with
    | none => exact ⟨rfl, rfl⟩
    | some project =>
      dsimp only
      cases h3 : db.courses.find? (fun c => decide (c.id = project.course_id)) with
      | none => exact ⟨rfl, rfl⟩
      | some course =>
        dsimp only
        split_ifs <;> refine ⟨rfl, ?_⟩ <;>
          first
          | rfl
          | rw [eraseLog_logActivity, eraseLog_logActivity]

/-- Audit-failure independence of `PUT /api/submissions/:id`
(helper for C8). -/
theorem updateSubmission_audit_invariant (db : DB) (a b : Bool)
    (now userId submissionId : Nat) (content : String) :
    (updateSubmission db a now userId submissionId content).2
      = (updateSubmission db b now userId submissionId content).2 ∧
    eraseLog (updateSubmission db a now userId submissionId content).1
      = eraseLog (updateSubmission db b now userId submissionId content).1 := by
  unfold updateSubmission
  cases h1 : db.submissions.find? (fun s => decide (s.id = submissionId)) with
  | none => exact ⟨rfl, rfl⟩
  | some s =>
    dsimp only
    split_ifs <;> refine ⟨rfl, ?_⟩ <;>
      first
      | rfl
      | rw [eraseLog_logActivity, eraseLog_logActivity]

/-- Audit-failure independence of `DELETE /api/submissions/:id`
(helper for C8). -/
theorem deleteSubmission_audit_invariant (db : DB) (a b : Bool)
    (now userId submissionId : Nat) :
    (deleteSubmission db a now userId submissionId).2
      = (deleteSubmission db b now userId submissionId).2 ∧
    eraseLog (deleteSubmission db a now userId submissionId).1
      = eraseLog (deleteSubmission db b now userId submissionId).1 := by
  unfold deleteSubmission
  cases h1 : db.submissions.find? (fun s => decide (s.id = submissionId)) with
  | none => exact ⟨rfl, rfl⟩
  | some s =>
    dsimp only
    split_ifs <;> refine ⟨rfl, ?_⟩ <;>
      first
      | rfl
      | rw [eraseLog_logActivity, eraseLog_logActivity]

/-- Audit-failure independence of `PUT /api/folders/:id`
(helper for C8). -/
theorem updateFolder_audit_invariant (db : DB) (a b : Bool)
    (now userId folderId : Nat) (name? : Option String) (parent? : Option Nat) :
    (updateFolder db a now userId folderId name? parent?).2
      = (updateFolder db b now userId folderId name? parent?).2 ∧
    eraseLog (updateFolder db a now userId folderId name? parent?).1
      = eraseLog (updateFolder db b now userId folderId name? parent?).1 := by
  unfold updateFolder
  cases h1 : db.folders.find? (fun f => decide (f.id = folderId)) with
  | none => exact ⟨rfl, rfl⟩
  | some folder =>
    dsimp only
    split_ifs <;> refine ⟨rfl, ?_⟩ <;>
      first
      | rfl
      | rw [eraseLog_logActivity, eraseLog_logActivity]

/-- Audit-failure independence of `POST /api/comments`
(helper for C8). -/
theorem createComment_audit_invariant (db : DB) (a b : Bool) (now userId : Nat)
    (entityType : String) (entityId : Nat) (content : String)
    (parentId : Option Nat) (newId : Nat) :
    (createComment db a now userId entityType entityId content parentId newId).2
      = (createComment db b now userId entityType entityId content parentId newId).2 ∧
    eraseLog (createComment db a now userId entityType entityId content parentId newId).1
      = eraseLog (createComment db b now userId entityType entityId content parentId newId).1 := by
  unfold createComment
  cases hp : parentId with
  | none =>
    exact ⟨rfl, by rw [eraseLog_logActivity, eraseLog_logActivity]⟩
  | some pid =>
    dsimp only
    cases h1 : db.comments.find? (fun c => decide (c.id = pid)) with
    | none => exact ⟨rfl, rfl⟩
    | some parent =>
      dsimp only
      split_ifs <;> refine ⟨rfl, ?_⟩ <;>
        first
        | rfl
        | rw [eraseLog_logActivity, eraseLog_logActivity]

/-! ## Claim theorems -/

/-- C1, counterexample: the admin decision does NOT short-circuit ahead
of the document lookup.  `canViewDocument` (and `canEditDocument`)
first fetch the document with `is_deleted = false`, so for a document
with `is_deleted = true` even a global admin receives `notFound`
instead of the claimed unconditional allow. -/
theorem C1_admin_deleted_counterexample :
    dbDeletedDoc.documents = [⟨5, 2, none, true⟩] ∧
    (⟨1, "admin"⟩ : User).role = "admin" ∧
    canViewDocument dbDeletedDoc ⟨1, "admin"⟩ 5 = .notFound ∧
    canEditDocument dbDeletedDoc ⟨1, "admin"⟩ 5 = .notFound :=
  ⟨rfl, rfl, rfl, rfl⟩

/-- C1, amended: an actor with global role `admin` is allowed
unconditionally — before any per-resource lookup — for course
management and submission grading; for documents the admin override
applies only after the soft-delete–filtered document lookup, so an
admin is allowed on every non-deleted document but receives `notFound`
for a deleted or absent one. -/
theorem C1_admin_override (db : DB) (actor : User) (id : Nat)
    (h : actor.role = "admin") :
    canManageCourse db actor id = .ok ∧
    canGradeSubmission db actor id = .ok ∧
    (∀ d, findNonDeletedDocument db id = some d →
      canViewDocument db actor id = .ok ∧ canEditDocument db actor id = .ok) ∧
    (findNonDeletedDocument db id = none →
      canViewDocument db actor id = .notFound ∧
      canEditDocument db actor id = .notFound) := by
  refine ⟨?_, ?_, ?_, ?_⟩
  · simp [canManageCourse, h]
  · simp [canGradeSubmission, h]
  · intro d hd
    constructor
    · simp [canViewDocument, hd, h]
    · simp [canEditDocument, hd, h]
  · intro hd
    constructor
    · simp [canViewDocument, hd]
    · simp [canEditDocument, hd]

/-- C1, witness: the amended admin-override theorem applied to a store
holding one non-deleted document (id 5) and the admin user 1. -/
theorem C1_admin_override_witness :
    canManageCourse dbLiveDoc ⟨1, "admin"⟩ 5 = .ok ∧
    canGradeSubmission dbLiveDoc ⟨1, "admin"⟩ 5 = .ok ∧
    canViewDocument dbLiveDoc ⟨1, "admin"⟩ 5 = .ok ∧
    canEditDocument dbLiveDoc ⟨1, "admin"⟩ 5 = .ok :=
  have h := C1_admin_override dbLiveDoc ⟨1, "admin"⟩ 5 rfl
  ⟨h.1, h.2.1, (h.2.2.1 ⟨5, 2, none, false⟩ rfl).1, (h.2.2.1 ⟨5, 2, none, false⟩ rfl).2⟩

/-- C2, counterexample: a folder whose `parent_id` names a folder not
in the input set is NOT promoted to a root — the tree assembly of
`GET /api/folders` attaches it nowhere, so it is silently dropped from
the output forest. -/
theorem C2_orphan_dropped_counterexample :
    orphanFolder ∈ [orphanFolder] ∧ orphanFolder.parent_id = some 1 ∧
    buildFolderForest [orphanFolder] = [] :=
  ⟨List.mem_singleton.mpr rfl, rfl, rfl⟩

/-- C2, amended: in the forest produced by the folder tree builder, a
folder with null `parent_id` appears as a root, but a folder whose
`parent_id` refers to a folder not present in the input set appears
nowhere in the output forest — it is silently dropped, not promoted to
a root. -/
theorem C2_orphan_handling (fs : List Folder) (f : Folder) (hf : f ∈ fs) :
    (f.parent_id = none → ∃ cs, FolderTree.node f cs ∈ buildFolderForest fs) ∧
    (∀ p, f.parent_id = some p → (∀ g, g ∈ fs → g.id ≠ p) →
      folderInForest f (buildFolderForest fs) = false) := by
  constructor
  · intro hroot
    obtain ⟨cs, hcs⟩ := buildFolderNode_isNode fs fs.length f
    refine ⟨cs, ?_⟩
    rw [← hcs]
    exact List.mem_map_of_mem _ (List.mem_filter.mpr ⟨hf, by simp [hroot]⟩)
  · intro p hp hnone
    rw [Bool.eq_false_iff]
    intro htrue
    simp only [folderInForest, List.any_eq_true] at htrue
    rcases htrue with ⟨t, ht, hft⟩
    rcases List.mem_map.mp ht with ⟨r, hr, rfl⟩
    rcases List.mem_filter.mp hr with ⟨hrfs, hrroot⟩
    rcases folderInTree_buildFolderNode fs fs.length r hrfs f hft with rfl | ⟨g, hg, hpg⟩
    · rw [hp] at hrroot
      simp at hrroot
    · rw [hp] at hpg
      exact hnone g hg (Option.some.inj hpg).symm

/-- C2, witness: the amended theorem applied to the singleton orphan
set shows the orphan absent from the built forest. -/
theorem C2_orphan_handling_witness :
    folderInForest orphanFolder (buildFolderForest [orphanFolder]) = false :=
  (C2_orphan_handling [orphanFolder] orphanFolder (by decide)).2 1 rfl (by decide)

/-- C3, code bug: `POST /api/submissions` assigns
`attempt_number := count + 1`, not the smallest unused positive
integer.  After create (attempt 1), create (attempt 2), delete of
attempt 1, the surviving attempt set is {2} — the smallest unused
number is 1 — yet the next create is assigned `attempt_number = 2`,
duplicating an existing attempt. -/
theorem C3_attempt_reuse :
    (pairSubmissions dbAttemptDel 1 7).map (fun s => s.attempt_number) = [2] ∧
    (createSubmission dbAttemptDel true 0 7 1 "c" 103).2
      = .ok ⟨103, 1, 7, "c", 2, none⟩ ∧
    ((createSubmission dbAttemptDel true 0 7 1 "c" 103).1.submissions.map
      (fun s => s.attempt_number)) = [2, 2] :=
  ⟨rfl, rfl, rfl⟩

/-- C4, code bug: `PUT /api/folders/:id` only rejects the literal
self-move (`parent_id === id`) although its own comment promises to
prevent moves into descendants.  Moving root folder 1 under its child
folder 2 is accepted and creates the cycle 1 → 2 → 1, making folder 1
its own transitive ancestor. -/
theorem C4_cycle_accepted :
    dbFolderPair.folders = [⟨1, "a", none⟩, ⟨2, "b", some 1⟩] ∧
    (updateFolder dbFolderPair true 0 9 1 none (some 2)).2 = .ok ⟨1, "a", some 2⟩ ∧
    ancestorWithin (updateFolder dbFolderPair true 0 9 1 none (some 2)).1.folders 2 1 1
      = true :=
  ⟨rfl, rfl, rfl⟩

/-- C5, counterexample: the claim quantifies over EVERY user enrolled
as a student with no explicit grant, but when that user is the
document's author, ownership short-circuits and `edit` resolves allow,
not deny. -/
theorem C5_author_counterexample :
    dbAuthorStudent.documents = [⟨10, 2, some 1, false⟩] ∧
    dbAuthorStudent.enrollments = [⟨1, 2, "student"⟩] ∧
    dbAuthorStudent.document_permissions = [] ∧
    authorStudent = ⟨2, "student"⟩ ∧
    canEditDocument dbAuthorStudent authorStudent 10 = .ok :=
  ⟨rfl, rfl, rfl, rfl, rfl⟩

/-- C5, amended: for every user who is enrolled (role student) in the
course of a non-deleted document, is not the document's author, does
not hold global role admin, and has no applicable DocumentPermission
row, `canViewDocument` (the middleware resolving both `view` and
`comment`) allows and `canEditDocument` denies. -/
theorem C5_enrollment_view_not_edit (db : DB) (actor : User) (docId : Nat)
    (d : Document) (cid : Nat)
    (hadmin : actor.role ≠ "admin")
    (hdoc : findNonDeletedDocument db docId = some d)
    (hauthor : d.author_id ≠ actor.id)
    (hcourse : d.course_id = some cid)
    (henroll : ∃ e, e ∈ db.enrollments ∧ e.course_id = cid ∧ e.user_id = actor.id ∧
      e.role = "student")
    (hnogrant : ∀ p, p ∈ db.document_permissions →
      permissionMatches db actor.id docId p = false) :
    canViewDocument db actor docId = .ok ∧
    canEditDocument db actor docId = .forbidden := by
  obtain ⟨e, he, hec, heu, _⟩ := henroll
  have h1 : ¬(actor.role = "admin" ∨ d.author_id = actor.id) := by
    rintro (h | h)
    · exact hadmin h
    · exact hauthor h
  constructor
  · simp only [canViewDocument, hdoc, hcourse]
    rw [if_neg h1, if_pos]
    show (db.enrollments.find? _).isSome = true
    rw [List.find?_isSome]
    exact ⟨e, he, by simp [hec, heu]⟩
  · simp only [canEditDocument, hdoc]
    have h2 : ¬((db.document_permissions.find? (fun p =>
        permissionMatches db actor.id docId p &&
          decide (p.permission = "edit" ∨ p.permission = "admin"))).isSome = true) := by
      rw [List.find?_isSome]
      rintro ⟨p, hp, hpx⟩
      rw [Bool.and_eq_true] at hpx
      rw [hnogrant p hp] at hpx
      exact Bool.false_ne_true hpx.1
    rw [if_neg h1, if_neg h2]

/-- C5, witness: the amended theorem applied to a store where user 3 is
enrolled as a student in course 1, document 10 belongs to course 1 and
was authored by user 2, and there are no permission rows. -/
theorem C5_enrollment_view_not_edit_witness :
    canViewDocument dbPlainStudent plainStudent 10 = .ok ∧
    canEditDocument dbPlainStudent plainStudent 10 = .forbidden :=
  C5_enrollment_view_not_edit dbPlainStudent plainStudent 10 ⟨10, 2, some 1, false⟩ 1
    (by decide) rfl (by decide) rfl
    ⟨⟨1, 3, "student"⟩, by simp [dbPlainStudent, emptyDB], rfl, rfl, rfl⟩
    (by intro p hp; simp [dbPlainStudent, emptyDB] at hp)

/-- C6: the course activity feed contains exactly the log entries whose
`(entity_type, entity_id)` names the course, one of its projects, a
task of such a project, a submission of such a task, or a document of
the course — and no entry of any other course's entities — ordered by
`created_at` descending and truncated to `limit`.  (The completeness
half of the iff assumes the feed is not truncated, i.e. `limit` bounds
the whole log, and the referential integrity of `user_id`, which the
schema's foreign key guarantees and the inner `users` join relies on.) -/
theorem C6_course_activity_closure (db : DB) (courseId limit : Nat)
    (hlim : db.activity_log.length ≤ limit)
    (hfk : ∀ e, e ∈ db.activity_log → ∃ u, u ∈ db.users ∧ u.id = e.user_id) :
    (∀ e, e ∈ getCourseActivity db courseId limit ↔
      (e ∈ db.activity_log ∧
        ((e.entity_type = "course" ∧ e.entity_id = courseId) ∨
         (e.entity_type = "project" ∧ ∃ p, p ∈ db.projects ∧
            p.id = e.entity_id ∧ p.course_id = courseId) ∨
         (e.entity_type = "task" ∧ ∃ t, t ∈ db.tasks ∧ t.id = e.entity_id ∧
            ∃ p, p ∈ db.projects ∧ p.id = t.project_id ∧ p.course_id = courseId) ∨
         (e.entity_type = "submission" ∧ ∃ s, s ∈ db.submissions ∧ s.id = e.entity_id ∧
            ∃ t, t ∈ db.tasks ∧ t.id = s.task_id ∧
              ∃ p, p ∈ db.projects ∧ p.id = t.project_id ∧ p.course_id = courseId) ∨
         (e.entity_type = "document" ∧ ∃ d, d ∈ db.documents ∧
            d.id = e.entity_id ∧ d.course_id = some courseId)))) ∧
    (getCourseActivity db courseId limit).Pairwise
      (fun a b => b.created_at ≤ a.created_at) ∧
    (getCourseActivity db courseId limit).length ≤ limit := by
  have hpool : (db.activity_log.filter (fun e =>
      inCourseClosure db courseId e && userExists db e.user_id)).length ≤ limit :=
    le_trans (List.length_filter_le _ _) hlim
  have htake : getCourseActivity db courseId limit
      = sortByCreatedDesc (db.activity_log.filter (fun e =>
          inCourseClosure db courseId e && userExists db e.user_id)) := by
    unfold getCourseActivity
    exact List.take_of_length_le (by rw [length_sortByCreatedDesc]; exact hpool)
  refine ⟨?_, ?_, ?_⟩
  · intro e
    rw [htake, mem_sortByCreatedDesc, List.mem_filter, Bool.and_eq_true,
      inCourseClosure_iff, userExists_iff]
    constructor
    · rintro ⟨hmem, hclo, -⟩
      exact ⟨hmem, hclo⟩
    · rintro ⟨hmem, hclo⟩
      exact ⟨hmem, hclo, hfk e hmem⟩
  · unfold getCourseActivity
    exact (pairwise_sortByCreatedDesc _).sublist (List.take_sublist _ _)
  · unfold getCourseActivity
    rw [List.length_take]
    exact min_le_left _ _

/-- C6, witness: in the two-course store, the document-14 entry of
course 1 belongs to the feed of course 1 and the feed respects the
limit. -/
theorem C6_course_activity_closure_witness :
    (⟨7, "create", "document", 14, "", 5⟩ : ActivityLogEntry)
      ∈ getCourseActivity dbActivity 1 100 ∧
    (⟨7, "create", "document", 24, "", 10⟩ : ActivityLogEntry)
      ∉ getCourseActivity dbActivity 1 100 ∧
    (getCourseActivity dbActivity 1 100).length ≤ 100 :=
  have h := C6_course_activity_closure dbActivity 1 100 (by decide) (by decide)
  ⟨(h.1 _).mpr ⟨by decide,
      Or.inr (Or.inr (Or.inr (Or.inr ⟨rfl, ⟨14, 7, some 1, false⟩, by decide, rfl, rfl⟩)))⟩,
    fun hmem => by
      have := (h.1 _).mp hmem
      revert this
      decide,
    h.2.2⟩

/-- C7: a graded submission (`graded_at` set) is immutable to its
owner: both the update and the delete handlers reject with the
`InvalidState`-class error (HTTP 400, "Cannot update/delete graded
submission") and leave the store unchanged. -/
theorem C7_graded_immutable (db : DB) (auditOk : Bool)
    (now userId submissionId : Nat) (content : String) (s : Submission) (t : Nat)
    (hfind : db.submissions.find? (fun x => decide (x.id = submissionId)) = some s)
    (howner : s.user_id = userId)
    (hgraded : s.graded_at = some t) :
    updateSubmission db auditOk now userId submissionId content
      = (db, .error (.badRequest "Cannot update graded submission")) ∧
    deleteSubmission db auditOk now userId submissionId
      = (db, .error (.badRequest "Cannot delete graded submission")) := by
  constructor
  · simp [updateSubmission, hfind, howner, hgraded]
  · simp [deleteSubmission, hfind, howner, hgraded]

/-- C7, witness: the graded-immutability theorem applied to a store
holding the graded submission 40 owned by user 7. -/
theorem C7_graded_immutable_witness :
    updateSubmission dbGraded true 0 7 40 "x"
      = (dbGraded, .error (.badRequest "Cannot update graded submission")) ∧
    deleteSubmission dbGraded true 0 7 40
      = (dbGraded, .error (.badRequest "Cannot delete graded submission")) :=
  C7_graded_immutable dbGraded true 0 7 40 "x" ⟨40, 1, 7, "done", 1, some 99⟩ 99
    rfl rfl rfl

/-- C8: the audit recorder `logActivity` is total — it returns the
appended store when the underlying insert succeeds and the unchanged
store when it fails, never an error — and for every mutating operation
that invokes it, both the response and the non-audit state are
identical whether the audit insert succeeds or fails: audit failures
never propagate to, or affect the outcome of, the triggering business
operation. -/
theorem C8_audit_never_propagates :
    (∀ (db : DB) (a : Bool) (now userId : Nat) (action entityType : String)
        (entityId : Nat) (metadata : String),
      logActivity db true now userId action entityType entityId metadata
        = { db with activity_log := db.activity_log
              ++ [⟨userId, action, entityType, entityId, metadata, now⟩] } ∧
      logActivity db false now userId action entityType entityId metadata = db ∧
      eraseLog (logActivity db a now userId action entityType entityId metadata)
        = eraseLog db) ∧
    (∀ (db : DB) (a b : Bool) (now userId taskId : Nat) (content : String)
        (newId : Nat),
      (createSubmission db a now userId taskId content newId).2
        = (createSubmission db b now userId taskId content newId).2 ∧
      eraseLog (createSubmission db a now userId taskId content newId).1
        = eraseLog (createSubmission db b now userId taskId content newId).1) ∧
    (∀ (db : DB) (a b : Bool) (now userId submissionId : Nat) (content : String),
      (updateSubmission db a now userId submissionId content).2
        = (updateSubmission db b now userId submissionId content).2 ∧
      eraseLog (updateSubmission db a now userId submissionId content).1
        = eraseLog (updateSubmission db b now userId submissionId content).1) ∧
    (∀ (db : DB) (a b : Bool) (now userId submissionId : Nat),
      (deleteSubmission db a now userId submissionId).2
        = (deleteSubmission db b now userId submissionId).2 ∧
      eraseLog (deleteSubmission db a now userId submissionId).1
        = eraseLog (deleteSubmission db b now userId submissionId).1) ∧
    (∀ (db : DB) (a b : Bool) (now userId folderId : Nat)
        (name? : Option String) (parent? : Option Nat),
      (updateFolder db a now userId folderId name? parent?).2
        = (updateFolder db b now userId folderId name? parent?).2 ∧
      eraseLog (updateFolder db a now userId folderId name? parent?).1
        = eraseLog (updateFolder db b now userId folderId name? parent?).1) ∧
    (∀ (db : DB) (a b : Bool) (now userId : Nat) (entityType : String)
        (entityId : Nat) (content : String) (parentId : Option Nat) (newId : Nat),
      (createComment db a now userId entityType entityId content parentId newId).2
        = (createComment db b now userId entityType entityId content parentId newId).2 ∧
      eraseLog (createComment db a now userId entityType entityId content parentId newId).1
        = eraseLog (createComment db b now userId entityType entityId content parentId newId).1) :=
  ⟨fun db a now userId action entityType entityId metadata =>
      ⟨rfl, rfl, eraseLog_logActivity db a now userId action entityType entityId metadata⟩,
    createSubmission_audit_invariant, updateSubmission_audit_invariant,
    deleteSubmission_audit_invariant, updateFolder_audit_invariant,
    createComment_audit_invariant⟩

/-- C9: comment creation performs no authorization or visibility check
on the target entity — for EVERY store and every actor it succeeds and
inserts the row whenever the parent precondition holds (no parent, or
the parent names an existing comment on the same entity), and the only
enforced preconditions are exactly the two parent checks. -/
theorem C9_comment_no_authz (db : DB) (auditOk : Bool) (now userId : Nat)
    (entityType : String) (entityId : Nat) (content : String) (newId : Nat) :
    (createComment db auditOk now userId entityType entityId content none newId
      = (logActivity { db with comments :=
            db.comments ++ [⟨newId, entityType, entityId, userId, content, none⟩] }
          auditOk now userId "create" entityType entityId "comment",
         .ok ⟨newId, entityType, entityId, userId, content, none⟩)) ∧
    (∀ pid parent,
      db.comments.find? (fun c => decide (c.id = pid)) = some parent →
      parent.entity_id = entityId → parent.entity_type = entityType →
      createComment db auditOk now userId entityType entityId content (some pid) newId
        = (logActivity { db with comments :=
              db.comments ++ [⟨newId, entityType, entityId, userId, content, some pid⟩] }
            auditOk now userId "create" entityType entityId "comment",
           .ok ⟨newId, entityType, entityId, userId, content, some pid⟩)) ∧
    (∀ pid,
      db.comments.find? (fun c => decide (c.id = pid)) = none →
      createComment db auditOk now userId entityType entityId content (some pid) newId
        = (db, .error (.notFound "Parent comment not found"))) ∧
    (∀ pid parent,
      db.comments.find? (fun c => decide (c.id = pid)) = some parent →
      (parent.entity_id ≠ entityId ∨ parent.entity_type ≠ entityType) →
      createComment db auditOk now userId entityType entityId content (some pid) newId
        = (db, .error (.badRequest "Parent comment does not belong to this entity"))) := by
  refine ⟨rfl, ?_, ?_, ?_⟩
  · intro pid parent hfind he ht
    simp [createComment, hfind, he, ht]
  · intro pid hfind
    simp [createComment, hfind]
  · intro pid parent hfind hne
    simp only [createComment, hfind]
    rw [if_pos hne]

/-- C9, witness: replying (parent comment 3, same document entity) in a
store whose only content is that comment inserts the reply, with no
entity-level authorization consulted. -/
theorem C9_comment_no_authz_witness :
    createComment dbOneComment true 0 9 "document" 55 "hi" (some 3) 1
      = (logActivity { dbOneComment with comments :=
            dbOneComment.comments ++ [⟨1, "document", 55, 9, "hi", some 3⟩] }
          true 0 9 "create" "document" 55 "comment",
         .ok ⟨1, "document", 55, 9, "hi", some 3⟩) :=
  (C9_comment_no_authz dbOneComment true 0 9 "document" 55 "hi" 1).2.1 3
    ⟨3, "document", 55, 7, "root", none⟩ rfl rfl rfl

/-- C10: `requireRole` admits by rank, not by membership alone — for a
non-empty allowed list, an authenticated actor passes iff their role is
listed or its `ROLE_HIERARCHY` rank is at least the rank of every
listed role (equivalently, at least the maximum listed rank). -/
theorem C10_requireRole_rank (allowedRoles : List String) (userRole : String)
    (_hne : allowedRoles ≠ []) :
    requireRole allowedRoles userRole = true ↔
      (userRole ∈ allowedRoles ∨
        ∀ r, r ∈ allowedRoles → ROLE_HIERARCHY r ≤ ROLE_HIERARCHY userRole) := by
  clear _hne
  by_cases hmem : allowedRoles.contains userRole = true
  · have hm : userRole ∈ allowedRoles := by simpa [List.contains_eq_any_beq,
      List.any_eq_true] using hmem
    simp [requireRole, hmem, hm]
  · have hm : userRole ∉ allowedRoles := fun hc =>
      hmem (by simpa [List.contains_eq_any_beq, List.any_eq_true] using hc)
    simp only [requireRole, hmem, Bool.false_eq_true, if_false, Bool.not_eq_true',
      decide_eq_false_iff_not, Nat.not_lt]
    rw [foldl_max_le_iff]
    simp [hm, List.forall_mem_map]

/-- C10, witness: an instructor (rank 4) is admitted by a list naming
only `student` (rank 2), though not a member of it. -/
theorem C10_requireRole_rank_witness :
    requireRole ["student"] "instructor" = true :=
  (C10_requireRole_rank ["student"] "instructor" (by decide)).mpr
    (Or.inr (by decide))

end DocFlow
